import Mathlib

/-
Verification of the apogeetrak satellite-tracking subsystem.

Rust floating-point (`f32`/`f64`) arithmetic is embedded as exact
rational (`ℚ`) or real (`ℝ`) arithmetic; machine strings are embedded as
Lean `String`s.  External capabilities (the sgp4 propagation library,
chrono date reconstruction) are passed in as oracle functions, mirroring
the spec's treatment of the propagation model as an opaque capability.
-/

/-! ## Simulation clock (src/systems/time.rs, src/systems/ui.rs) -/

/-- `f64::clamp` after its `assert!(min <= max)` has passed: the body
`if self < min { min } else if self > max { max } else { self }`. -/
def fclamp (x lo hi : ℚ) : ℚ :=
  if x < lo then lo else if hi < x then hi else x

/-- Rust `f64::clamp` including its `assert!(min <= max)`: `none` models the
panic raised when the bounds are invalid. -/
def rustClamp (x lo hi : ℚ) : Option ℚ :=
  if lo ≤ hi then some (fclamp x lo hi) else none

/-- `TimeState` of src/systems/time.rs (the simulated instant `sim_time` is
not touched by the three speed-control operations and is omitted). -/
structure TimeSt where
  is_paused : Bool
  speed_mult : ℚ
deriving DecidableEq

/-- `TimeState::default()`: not paused, speed multiplier 1.0. -/
def tsDefault : TimeSt :=
  { is_paused := false, speed_mult := 1 }

/-- `TimeState::step_backward` (time.rs lines 52-62). -/
def stepBackward (s : TimeSt) : TimeSt :=
  { is_paused := false
    speed_mult :=
      if 1 < s.speed_mult then s.speed_mult / 2
      else if s.speed_mult = 1 then -1
      else fclamp (s.speed_mult * 2) (-4096) (-1) }

/-- `TimeState::step_forward` (time.rs lines 65-75). -/
def stepForward (s : TimeSt) : TimeSt :=
  { is_paused := false
    speed_mult :=
      if s.speed_mult < -1 then s.speed_mult / 2
      else if s.speed_mult = -1 then 1
      else fclamp (s.speed_mult * 2) 1 4096 }

/-- `TimeState::reset_to_normal` (time.rs lines 77-80). -/
def resetToNormal (_ : TimeSt) : TimeSt :=
  { is_paused := false, speed_mult := 1 }

/-- A user action on the three time-control operations. -/
inductive TimeOp where
  | backward
  | forward
  | reset
deriving DecidableEq

/-- Apply one time-control operation to the clock state. -/
def applyTimeOp (s : TimeSt) (op : TimeOp) : TimeSt :=
  match op with
  | TimeOp.backward => stepBackward s
  | TimeOp.forward => stepForward s
  | TimeOp.reset => resetToNormal s

/-- Run a finite sequence of time-control operations. -/
def runTimeOps (s : TimeSt) (ops : List TimeOp) : TimeSt :=
  ops.foldl applyTimeOp s

/-- Invariant: the speed multiplier is a signed power of two, `2^k` or
`-2^k` with `0 ≤ k ≤ 12`. -/
def SpeedOk (q : ℚ) : Prop :=
  ∃ k : ℕ, k ≤ 12 ∧ (q = 2 ^ k ∨ q = -(2 ^ k))

/-- The forward-button speed update of `handle_time_control`
(src/systems/ui.rs lines 245-253), with Rust clamp-panic semantics:
`none` models a panic. -/
def forwardButtonUpdate (speed_mult : ℚ) : Option ℚ :=
  if speed_mult < -1 then rustClamp (speed_mult / 2) 1 (-1)
  else if speed_mult = -1 then some 1
  else rustClamp (speed_mult * 2) 1 4096

/-! ## Propagation adapter (src/systems/satellites/tle.rs) -/

/-- A three-component cartesian quantity over exact rationals. -/
structure QVec3 where
  x : ℚ
  y : ℚ
  z : ℚ
deriving DecidableEq

/-- sgp4 `Prediction`: position (km) and velocity (km/s). -/
structure Prediction where
  position : QVec3
  velocity : QVec3
deriving DecidableEq

/-- The fallback prediction `{ position: [0,0,0], velocity: [0,0,0] }`. -/
def zeroPrediction : Prediction :=
  { position := ⟨0, 0, 0⟩, velocity := ⟨0, 0, 0⟩ }

/-- `Satellite::calculate` (src/systems/satellites/tle.rs lines 66-83).
The opaque sgp4 propagation (`Constants::propagate`, `none` = `Err`) and the
chrono epoch reconstruction (`minutes_since_epoch`, `none` = invalid derived
calendar date) are oracle parameters; times are abstract rationals. -/
def calculate (propagate : ℚ → Option Prediction)
    (minutes_since_epoch : ℚ → Option ℚ) (propagation_time : ℚ) : Prediction :=
  match minutes_since_epoch propagation_time with
  | none => zeroPrediction
  | some tsince => (propagate tsince).getD zeroPrediction

/-- Modelled from the spec: the error-policy row "EpochReconstructionError —
invalid derived calendar date — exclude satellite from time queries"
(spec §7): a position query that produces no result at all when the epoch
reconstruction fails.  Stated for comparison with `calculate`, which is
what the code actually does. -/
def calculateExcluding (propagate : ℚ → Option Prediction)
    (minutes_since_epoch : ℚ → Option ℚ) (propagation_time : ℚ) : Option Prediction :=
  match minutes_since_epoch propagation_time with
  | none => none
  | some tsince => some ((propagate tsince).getD zeroPrediction)

/-! ## Orbital period (src/systems/satellites/tle.rs lines 99-103) -/

/-- The orbital period in minutes used by `generate_orbit_path`:
`1440.0 / mean_motion` when `mean_motion > 0.0`, else the fallback `90.0`. -/
def orbitalPeriod (mean_motion : ℚ) : ℚ :=
  if 0 < mean_motion then 1440 / mean_motion else 90

/-! ## Two-digit year pivot (src/systems/tle.rs lines 71-73) -/

/-- The pivot applied to a parsed two-digit year:
`if yy < 57 { 2000 + yy } else { 1900 + yy }`. -/
def resolveTwoDigitYear (yy : ℕ) : ℕ :=
  if yy < 57 then 2000 + yy else 1900 + yy

/-- Byte-range slicing `s[a..b]` of an ASCII record line. -/
def strSlice (s : String) (a b : ℕ) : String :=
  ((s.toList.drop a).take (b - a)).asString

/-- Numeric value of a decimal digit character, `none` otherwise. -/
def digitVal (c : Char) : Option ℕ :=
  if c.isDigit then some (c.toNat - '0'.toNat) else none

/-- Value of a nonempty all-digit character list, `none` otherwise. -/
def parseDigits (cs : List Char) : Option ℕ :=
  cs.foldl (fun acc c => acc.bind (fun a => (digitVal c).map (fun d => a * 10 + d))) (some 0)

/-- Drop the optional leading sign accepted by Rust's unsigned `FromStr`. -/
def dropPlusSign (cs : List Char) : List Char :=
  match cs with
  | '+' :: rest => rest
  | cs => cs

/-- Rust `str::parse::<u16>()`: optional `+` sign, then one or more decimal
digits, value below `2^16`; anything else (spaces included) is an error. -/
def parseU16 (s : String) : Option ℕ :=
  let cs := dropPlusSign s.toList
  if cs = [] then none
  else (parseDigits cs).bind (fun n => if n < 65536 then some n else none)

/-- The year-resolution fragment of `Satellite::parse`
(src/systems/tle.rs lines 38-41, 49, 51, 71, 73): length guard, fixed-column
extraction of the two-digit launch year (`line1[9..11]`) and epoch year
(`line1[18..20]`), then the pivot.  The other columns of the record do not
feed into the resolved years and are not modelled here. -/
def tleParseYears (line1 line2 : String) : Option (ℕ × ℕ) :=
  if line1.length < 69 ∨ line2.length < 69 then none
  else
    (parseU16 (strSlice line1 9 11)).bind fun launch_yy =>
    (parseU16 (strSlice line1 18 20)).bind fun epoch_yy =>
    some (resolveTwoDigitYear launch_yy, resolveTwoDigitYear epoch_yy)

/-! ## Batch parsing (src/systems/satellites/tle.rs lines 24-42, 241-253) -/

/-- `Satellite::parse` (src/systems/satellites/tle.rs lines 24-42): reject if
either data line is shorter than 69 characters, then delegate to the opaque
sgp4 capability — `Elements::from_tle` and `Constants::from_elements` are
oracle parameters, `none` modelling `Err`.  A satellite is its elements
paired with its constants. -/
def tleParse {El Cst : Type} (fromTle : String → String → String → Option El)
    (constantsFromElements : El → Option Cst)
    (name line1 line2 : String) : Option (El × Cst) :=
  if line1.length < 69 ∨ line2.length < 69 then none
  else
    (fromTle name line1 line2).bind fun elements =>
    (constantsFromElements elements).map fun constants => (elements, constants)

/-- Rust `slice::chunks(3)`: consecutive groups of three, the last group
possibly shorter. -/
def chunks3 {α : Type} : List α → List (List α)
  | a :: b :: c :: rest => [a, b, c] :: chunks3 rest
  | [] => []
  | rest => [rest]

/-- The parsing loop of `fetch_satellites`
(src/systems/satellites/tle.rs lines 241-253): consume the input lines in
groups of three, keep the records `Satellite::parse` accepts, skip the
rest; incomplete trailing groups are skipped by the `chunk.len() == 3`
guard. -/
def fetchParseBatch {El Cst : Type} (fromTle : String → String → String → Option El)
    (constantsFromElements : El → Option Cst) (lines : List String) : List (El × Cst) :=
  (chunks3 lines).filterMap fun chunk =>
    match chunk with
    | [name, line1, line2] => tleParse fromTle constantsFromElements name line1 line2
    | _ => none

/-! ## Screen projection (src/systems/satellites/labels.rs lines 161-197) -/

/-- A four-component homogeneous vector over exact rationals. -/
structure QVec4 where
  x : ℚ
  y : ℚ
  z : ℚ
  w : ℚ
deriving DecidableEq

/-- A 4x4 matrix over exact rationals, stored by rows. -/
structure QMat4 where
  row0 : QVec4
  row1 : QVec4
  row2 : QVec4
  row3 : QVec4
deriving DecidableEq

/-- Dot product of two homogeneous vectors. -/
def qdot4 (a b : QVec4) : ℚ :=
  a.x * b.x + a.y * b.y + a.z * b.z + a.w * b.w

/-- Matrix-vector product `m * v`. -/
def mat4MulVec (m : QMat4) (v : QVec4) : QVec4 :=
  ⟨qdot4 m.row0 v, qdot4 m.row1 v, qdot4 m.row2 v, qdot4 m.row3 v⟩

/-- The clip-space position of labels.rs line 175: the view-projection
matrix applied to the homogeneous world position `(x, y, z, 1)`. -/
def clipSpacePos (view_projection : QMat4) (world_pos : QVec3) : QVec4 :=
  mat4MulVec view_projection ⟨world_pos.x, world_pos.y, world_pos.z, 1⟩

/-- The x component of the normalized device coordinates (labels.rs
line 184). -/
def ndcX (view_projection : QMat4) (world_pos : QVec3) : ℚ :=
  (clipSpacePos view_projection world_pos).x / (clipSpacePos view_projection world_pos).w

/-- The y component of the normalized device coordinates (labels.rs
line 184). -/
def ndcY (view_projection : QMat4) (world_pos : QVec3) : ℚ :=
  (clipSpacePos view_projection world_pos).y / (clipSpacePos view_projection world_pos).w

/-- `world_to_screen` (src/systems/satellites/labels.rs lines 161-197),
taking the already-composed view-projection matrix: transform to clip
space; `none` when `clip.w ≤ 0` (behind camera); normalized device
coordinates by perspective division (`ndc.z` is computed by the code but
never inspected); `none` when `ndc.x` or `ndc.y` leaves `[-1, 1]`; else
pixel coordinates with the vertical axis flipped. -/
def world_to_screen (view_projection : QMat4) (world_pos : QVec3)
    (screen_width screen_height : ℚ) : Option (ℚ × ℚ) :=
  if (clipSpacePos view_projection world_pos).w ≤ 0 then none
  else
    let ndcx := ndcX view_projection world_pos
    let ndcy := ndcY view_projection world_pos
    if ndcx < -1 ∨ 1 < ndcx ∨ ndcy < -1 ∨ 1 < ndcy then none
    else some ((ndcx + 1) * 0.5 * screen_width, (1 - ndcy) * 0.5 * screen_height)

/-! ## Position interpolator (spec §4.4; its caller is
src/systems/satellites/mod.rs lines 91-99) -/

/-- Componentwise linear interpolation `a + t * (b - a)`. -/
def qlerp (a b : QVec3) (t : ℚ) : QVec3 :=
  ⟨a.x + t * (b.x - a.x), a.y + t * (b.y - a.y), a.z + t * (b.z - a.z)⟩

/-- Modelled from the spec: `OrbitPath` (spec §3) — the cached samples, the
anchor base time, and the orbital period in minutes.  The interpolator
itself (`Satellite::position_at_time`) is absent from src; only its caller
`update_positions` is present. -/
structure OrbitPath where
  points : List QVec3
  base_time : ℚ
  period : ℚ

/-- Modelled from the spec: the Position Interpolator `position_at`
(spec §4.4): elapsed minutes from the anchor, Euclidean (always
nonnegative) modulo by the period, segment index clamped to `[0, N-2]`,
interpolation parameter clamped to `[0, 1]`, then linear interpolation
between the two bracketing cached samples.  Edge cases per the spec: empty
path yields the origin, a single-point path yields that point. -/
def position_at (path : OrbitPath) (target_time : ℚ) : QVec3 :=
  match path.points with
  | [] => ⟨0, 0, 0⟩
  | [p] => p
  | _ =>
    let n := path.points.length
    let elapsed := target_time - path.base_time
    let cycle_time := elapsed - path.period * ⌊elapsed / path.period⌋
    let time_per_segment := path.period / n
    let raw := cycle_time / time_per_segment
    let segment_index := min (⌊raw⌋.toNat) (n - 2)
    let t := max 0 (min 1 (raw - ⌊raw⌋))
    qlerp (path.points.getD segment_index ⟨0, 0, 0⟩)
      (path.points.getD (segment_index + 1) ⟨0, 0, 0⟩) t

/-! ## Visibility (src/systems/satellites/labels.rs lines 201-225) -/

/-- A three-component cartesian vector over the reals (glam `Vec3`,
embedded exactly). -/
structure Vec3 where
  x : ℝ
  y : ℝ
  z : ℝ

/-- Componentwise difference `a - b`. -/
def v3sub (a b : Vec3) : Vec3 :=
  ⟨a.x - b.x, a.y - b.y, a.z - b.z⟩

/-- Componentwise sum `a + b`. -/
def v3add (a b : Vec3) : Vec3 :=
  ⟨a.x + b.x, a.y + b.y, a.z + b.z⟩

/-- Scalar multiple `c • v`. -/
def v3smul (c : ℝ) (v : Vec3) : Vec3 :=
  ⟨c * v.x, c * v.y, c * v.z⟩

/-- Dot product. -/
def v3dot (a b : Vec3) : ℝ :=
  a.x * b.x + a.y * b.y + a.z * b.z

/-- glam `Vec3::length`: the euclidean norm. -/
noncomputable def v3len (v : Vec3) : ℝ :=
  Real.sqrt (v3dot v v)

/-- glam `Vec3::normalize`: the vector scaled by the reciprocal of its
length. -/
noncomputable def v3normalize (v : Vec3) : Vec3 :=
  v3smul (v3len v)⁻¹ v

/-- The scalar projection `camera_to_earth.dot(camera_to_satellite.normalize())`
of labels.rs line 214. -/
noncomputable def projection_length (satellite_pos camera_pos earth_center : Vec3) : ℝ :=
  v3dot (v3sub earth_center camera_pos) (v3normalize (v3sub satellite_pos camera_pos))

/-- The closest-approach distance of labels.rs lines 220-221: the distance
from the planet center to `camera_pos + normalize(camera_to_satellite) *
projection_length`. -/
noncomputable def closest_approach_dist (satellite_pos camera_pos earth_center : Vec3) : ℝ :=
  v3len (v3sub
    (v3add camera_pos
      (v3smul (projection_length satellite_pos camera_pos earth_center)
        (v3normalize (v3sub satellite_pos camera_pos))))
    earth_center)

open Classical in
/-- `is_visible` (src/systems/satellites/labels.rs lines 201-225):
unconditionally visible when the scalar projection falls outside
`[0, distance_to_satellite]`; otherwise visible exactly when the
closest-approach distance strictly exceeds the planet radius. -/
noncomputable def is_visible (satellite_pos camera_pos earth_center : Vec3)
    (earth_radius : ℝ) : Prop :=
  let distance_to_satellite := v3len (v3sub satellite_pos camera_pos)
  let proj := projection_length satellite_pos camera_pos earth_center
  if proj < 0 ∨ distance_to_satellite < proj then True
  else earth_radius < closest_approach_dist satellite_pos camera_pos earth_center

/-! ## Helper lemmas -/

/-- `step_backward` preserves the signed-power-of-two invariant. -/
lemma speedOk_stepBackward (s : TimeSt) (h : SpeedOk s.speed_mult) :
    SpeedOk (stepBackward s).speed_mult := by
  obtain ⟨k, hk, hq | hq⟩ := h <;> interval_cases k <;>
    simp only [stepBackward, fclamp, hq] <;> norm_num <;>
    first
      | (refine ⟨0, ?_, Or.inl ?_⟩ <;> norm_num <;> done)
      | (refine ⟨0, ?_, Or.inr ?_⟩ <;> norm_num <;> done)
      | (refine ⟨1, ?_, Or.inl ?_⟩ <;> norm_num <;> done)
      | (refine ⟨1, ?_, Or.inr ?_⟩ <;> norm_num <;> done)
      | (refine ⟨2, ?_, Or.inl ?_⟩ <;> norm_num <;> done)
      | (refine ⟨2, ?_, Or.inr ?_⟩ <;> norm_num <;> done)
      | (refine ⟨3, ?_, Or.inl ?_⟩ <;> norm_num <;> done)
      | (refine ⟨3, ?_, Or.inr ?_⟩ <;> norm_num <;> done)
      | (refine ⟨4, ?_, Or.inl ?_⟩ <;> norm_num <;> done)
      | (refine ⟨4, ?_, Or.inr ?_⟩ <;> norm_num <;> done)
      | (refine ⟨5, ?_, Or.inl ?_⟩ <;> norm_num <;> done)
      | (refine ⟨5, ?_, Or.inr ?_⟩ <;> norm_num <;> done)
      | (refine ⟨6, ?_, Or.inl ?_⟩ <;> norm_num <;> done)
      | (refine ⟨6, ?_, Or.inr ?_⟩ <;> norm_num <;> done)
      | (refine ⟨7, ?_, Or.inl ?_⟩ <;> norm_num <;> done)
      | (refine ⟨7, ?_, Or.inr ?_⟩ <;> norm_num <;> done)
      | (refine ⟨8, ?_, Or.inl ?_⟩ <;> norm_num <;> done)
      | (refine ⟨8, ?_, Or.inr ?_⟩ <;> norm_num <;> done)
      | (refine ⟨9, ?_, Or.inl ?_⟩ <;> norm_num <;> done)
      | (refine ⟨9, ?_, Or.inr ?_⟩ <;> norm_num <;> done)
      | (refine ⟨10, ?_, Or.inl ?_⟩ <;> norm_num <;> done)
      | (refine ⟨10, ?_, Or.inr ?_⟩ <;> norm_num <;> done)
      | (refine ⟨11, ?_, Or.inl ?_⟩ <;> norm_num <;> done)
      | (refine ⟨11, ?_, Or.inr ?_⟩ <;> norm_num <;> done)
      | (refine ⟨12, ?_, Or.inl ?_⟩ <;> norm_num <;> done)
      | (refine ⟨12, ?_, Or.inr ?_⟩ <;> norm_num <;> done)

/-- `step_forward` preserves the signed-power-of-two invariant. -/
lemma speedOk_stepForward (s : TimeSt) (h : SpeedOk s.speed_mult) :
    SpeedOk (stepForward s).speed_mult := by
  obtain ⟨k, hk, hq | hq⟩ := h <;> interval_cases k <;>
    simp only [stepForward, fclamp, hq] <;> norm_num <;>
    first
      | (refine ⟨0, ?_, Or.inl ?_⟩ <;> norm_num <;> done)
      | (refine ⟨0, ?_, Or.inr ?_⟩ <;> norm_num <;> done)
      | (refine ⟨1, ?_, Or.inl ?_⟩ <;> norm_num <;> done)
      | (refine ⟨1, ?_, Or.inr ?_⟩ <;> norm_num <;> done)
      | (refine ⟨2, ?_, Or.inl ?_⟩ <;> norm_num <;> done)
      | (refine ⟨2, ?_, Or.inr ?_⟩ <;> norm_num <;> done)
      | (refine ⟨3, ?_, Or.inl ?_⟩ <;> norm_num <;> done)
      | (refine ⟨3, ?_, Or.inr ?_⟩ <;> norm_num <;> done)
      | (refine ⟨4, ?_, Or.inl ?_⟩ <;> norm_num <;> done)
      | (refine ⟨4, ?_, Or.inr ?_⟩ <;> norm_num <;> done)
      | (refine ⟨5, ?_, Or.inl ?_⟩ <;> norm_num <;> done)
      | (refine ⟨5, ?_, Or.inr ?_⟩ <;> norm_num <;> done)
      | (refine ⟨6, ?_, Or.inl ?_⟩ <;> norm_num <;> done)
      | (refine ⟨6, ?_, Or.inr ?_⟩ <;> norm_num <;> done)
      | (refine ⟨7, ?_, Or.inl ?_⟩ <;> norm_num <;> done)
      | (refine ⟨7, ?_, Or.inr ?_⟩ <;> norm_num <;> done)
      | (refine ⟨8, ?_, Or.inl ?_⟩ <;> norm_num <;> done)
      | (refine ⟨8, ?_, Or.inr ?_⟩ <;> norm_num <;> done)
      | (refine ⟨9, ?_, Or.inl ?_⟩ <;> norm_num <;> done)
      | (refine ⟨9, ?_, Or.inr ?_⟩ <;> norm_num <;> done)
      | (refine ⟨10, ?_, Or.inl ?_⟩ <;> norm_num <;> done)
      | (refine ⟨10, ?_, Or.inr ?_⟩ <;> norm_num <;> done)
      | (refine ⟨11, ?_, Or.inl ?_⟩ <;> norm_num <;> done)
      | (refine ⟨11, ?_, Or.inr ?_⟩ <;> norm_num <;> done)
      | (refine ⟨12, ?_, Or.inl ?_⟩ <;> norm_num <;> done)
      | (refine ⟨12, ?_, Or.inr ?_⟩ <;> norm_num <;> done)

/-- Every time-control operation preserves the invariant. -/
lemma speedOk_applyTimeOp (s : TimeSt) (op : TimeOp) (h : SpeedOk s.speed_mult) :
    SpeedOk (applyTimeOp s op).speed_mult := by
  cases op with
  | backward => exact speedOk_stepBackward s h
  | forward => exact speedOk_stepForward s h
  | reset => exact ⟨0, by norm_num, Or.inl (by simp [applyTimeOp, resetToNormal])⟩

/-- Any run of time-control operations preserves the invariant. -/
lemma speedOk_runTimeOps (ops : List TimeOp) (s : TimeSt) (h : SpeedOk s.speed_mult) :
    SpeedOk (runTimeOps s ops).speed_mult := by
  induction ops generalizing s with
  | nil => exact h
  | cons op rest ih =>
    simpa [runTimeOps] using ih (applyTimeOp s op) (speedOk_applyTimeOp s op h)

/-- Numeric consequences of the signed-power-of-two invariant. -/
lemma speedOk_bounds (q : ℚ) (h : SpeedOk q) :
    q ≠ 0 ∧ 1 ≤ |q| ∧ |q| ≤ 4096 ∧ ¬(-1 < q ∧ q < 1) := by
  obtain ⟨k, hk, hq | hq⟩ := h <;> interval_cases k <;> subst hq <;>
    refine ⟨by norm_num, ?_, ?_, by norm_num⟩ <;>
    first
      | (rw [abs_of_pos] <;> norm_num <;> done)
      | (rw [abs_of_neg] <;> norm_num <;> done)

/-- The camera-to-satellite vector of the sample geometry. -/
lemma v3sub_sample : v3sub ⟨2, 0, 0⟩ ⟨-2, 0, 0⟩ = ⟨4, 0, 0⟩ := by
  simp [v3sub]
  norm_num

/-- Its length is 4. -/
lemma v3len_sample : v3len (⟨4, 0, 0⟩ : Vec3) = 4 := by
  simp only [v3len, v3dot]
  norm_num
  rw [show (16:ℝ) = 4 ^ 2 by norm_num, Real.sqrt_sq (by norm_num : (0:ℝ) ≤ 4)]

/-- Its normalization is the positive x unit vector. -/
lemma v3normalize_sample : v3normalize (⟨4, 0, 0⟩ : Vec3) = ⟨1, 0, 0⟩ := by
  simp only [v3normalize, v3len_sample, v3smul]
  norm_num

/-- Scalar projection for the tangent planet center `(0, 1, 0)`. -/
lemma proj_sample_near : projection_length ⟨2, 0, 0⟩ ⟨-2, 0, 0⟩ ⟨0, 1, 0⟩ = 2 := by
  unfold projection_length
  rw [v3sub_sample, v3normalize_sample]
  simp [v3sub, v3dot]

/-- Closest-approach distance for the tangent planet center: exactly 1. -/
lemma closest_sample_near : closest_approach_dist ⟨2, 0, 0⟩ ⟨-2, 0, 0⟩ ⟨0, 1, 0⟩ = 1 := by
  unfold closest_approach_dist
  rw [proj_sample_near, v3sub_sample, v3normalize_sample]
  simp only [v3smul, v3add, v3sub, v3len, v3dot]
  norm_num

/-- Scalar projection for the distant planet center `(0, 5, 0)`. -/
lemma proj_sample_far : projection_length ⟨2, 0, 0⟩ ⟨-2, 0, 0⟩ ⟨0, 5, 0⟩ = 2 := by
  unfold projection_length
  rw [v3sub_sample, v3normalize_sample]
  simp [v3sub, v3dot]

/-- Closest-approach distance for the distant planet center: 5. -/
lemma closest_sample_far : closest_approach_dist ⟨2, 0, 0⟩ ⟨-2, 0, 0⟩ ⟨0, 5, 0⟩ = 5 := by
  unfold closest_approach_dist
  rw [proj_sample_far, v3sub_sample, v3normalize_sample]
  simp only [v3smul, v3add, v3sub, v3len, v3dot]
  norm_num
  rw [show (25:ℝ) = 5 ^ 2 by norm_num, Real.sqrt_sq (by norm_num : (0:ℝ) ≤ 5)]

/-! ## Claim theorems -/

/-- Claim C1, counterexample: at the tangent geometry — satellite `(2,0,0)`,
camera `(-2,0,0)`, planet center `(0,1,0)`, radius `1` — the scalar
projection `2` lies inside `[0, 4]` and the closest-approach distance equals
the radius, yet `is_visible` is false; so in the in-segment case visibility
is not equivalent to `radius ≤ distance`, refuting the claim's
"tangency (distance equal to the radius) counting as visible". -/
theorem is_visible_tangency_counterexample :
    0 ≤ projection_length ⟨2, 0, 0⟩ ⟨-2, 0, 0⟩ ⟨0, 1, 0⟩ ∧
    projection_length ⟨2, 0, 0⟩ ⟨-2, 0, 0⟩ ⟨0, 1, 0⟩ ≤ v3len (v3sub ⟨2, 0, 0⟩ ⟨-2, 0, 0⟩) ∧
    closest_approach_dist ⟨2, 0, 0⟩ ⟨-2, 0, 0⟩ ⟨0, 1, 0⟩ = 1 ∧
    ¬ (is_visible ⟨2, 0, 0⟩ ⟨-2, 0, 0⟩ ⟨0, 1, 0⟩ 1 ↔
        (1 : ℝ) ≤ closest_approach_dist ⟨2, 0, 0⟩ ⟨-2, 0, 0⟩ ⟨0, 1, 0⟩) := by
  have hvis : ¬ is_visible ⟨2, 0, 0⟩ ⟨-2, 0, 0⟩ ⟨0, 1, 0⟩ 1 := by
    simp only [is_visible]
    rw [proj_sample_near, v3sub_sample, v3len_sample, if_neg (by norm_num),
      closest_sample_near]
    norm_num
  refine ⟨by rw [proj_sample_near]; norm_num,
    by rw [proj_sample_near, v3sub_sample, v3len_sample]; norm_num,
    closest_sample_near, ?_⟩
  intro hiff
  exact hvis (hiff.mpr (by rw [closest_sample_near]))

/-- Claim C1, amended: `is_visible` computes the scalar projection of
`planet_center - camera_pos` onto the normalized camera-to-satellite
direction; outside `[0, distance to satellite]` the result is true, and
otherwise the result is true iff the closest-approach distance strictly
exceeds the planet radius — with tangency counting as occluded, not
visible. -/
theorem is_visible_characterization (sat cam center : Vec3) (r : ℝ) :
    ((projection_length sat cam center < 0 ∨
      v3len (v3sub sat cam) < projection_length sat cam center) →
        is_visible sat cam center r) ∧
    (0 ≤ projection_length sat cam center →
      projection_length sat cam center ≤ v3len (v3sub sat cam) →
      (is_visible sat cam center r ↔ r < closest_approach_dist sat cam center)) := by
  constructor
  · intro h
    simp only [is_visible]
    rw [if_pos h]
    trivial
  · intro h1 h2
    simp only [is_visible]
    rw [if_neg]
    push_neg
    exact ⟨h1, h2⟩

/-- Witness for C1: a satellite whose ray passes the planet center at
distance 5 > 1 is visible. -/
theorem is_visible_characterization_witness :
    is_visible ⟨2, 0, 0⟩ ⟨-2, 0, 0⟩ ⟨0, 5, 0⟩ 1 :=
  ((is_visible_characterization ⟨2, 0, 0⟩ ⟨-2, 0, 0⟩ ⟨0, 5, 0⟩ 1).2
    (by rw [proj_sample_far]; norm_num)
    (by rw [proj_sample_far, v3sub_sample, v3len_sample]; norm_num)).mpr
    (by rw [closest_sample_far]; norm_num)

/-- Claim C2: querying the interpolated position at the path's anchor time
returns exactly the first cached sample. -/
theorem position_at_base_time (path : OrbitPath) (hper : 0 < path.period)
    (hne : path.points ≠ []) :
    position_at path path.base_time = path.points.headD ⟨0, 0, 0⟩ := by
  obtain ⟨ps, bt, P⟩ := path
  match ps with
  | [] => simp at hne
  | [p] => simp [position_at]
  | p :: q :: rest =>
    simp only [position_at, List.headD]
    norm_num [qlerp]

/-- Witness for C2: a two-point path queried at its anchor time 100 yields
its first sample. -/
theorem position_at_base_time_witness :
    position_at ⟨[⟨1, 2, 3⟩, ⟨4, 5, 6⟩], 100, 90⟩
      (⟨[⟨1, 2, 3⟩, ⟨4, 5, 6⟩], 100, 90⟩ : OrbitPath).base_time =
    (⟨[⟨1, 2, 3⟩, ⟨4, 5, 6⟩], 100, 90⟩ : OrbitPath).points.headD ⟨0, 0, 0⟩ :=
  position_at_base_time ⟨[⟨1, 2, 3⟩, ⟨4, 5, 6⟩], 100, 90⟩ (by norm_num) (by simp)

/-- Claim C3: when the propagation engine fails at the requested time,
`calculate` still returns normally, with the zero-vector fallback
prediction; the failure is never surfaced as an error. -/
theorem calculate_propagation_failure_fallback (propagate : ℚ → Option Prediction)
    (minutes_since_epoch : ℚ → Option ℚ) (t m : ℚ)
    (hm : minutes_since_epoch t = some m) (hfail : propagate m = none) :
    calculate propagate minutes_since_epoch t = zeroPrediction := by
  simp [calculate, hm, hfail]

/-- Witness for C3: a propagator that always fails yields the zero
prediction. -/
theorem calculate_propagation_failure_fallback_witness :
    calculate (fun _ => none) (fun _ => some 0) 0 = zeroPrediction :=
  calculate_propagation_failure_fallback (fun _ => none) (fun _ => some 0) 0 0 rfl rfl

/-- Claim C4, counterexample: when epoch reconstruction fails, the code's
`calculate` still produces a prediction (the zero-vector fallback), so it
does not refine the spec's exclusion behavior `calculateExcluding`, which
produces no result at that input. -/
theorem calculate_epoch_failure_not_excluded :
    ¬ (some (calculate (fun _ => none) (fun _ => none) 0) =
        calculateExcluding (fun _ => none) (fun _ => none) 0) := by
  simp [calculate, calculateExcluding]

/-- Claim C4, amended: a satellite whose epoch reconstruction fails is not
excluded from time queries; `calculate` answers the query with the
zero-vector fallback prediction, exactly as for a propagation failure. -/
theorem calculate_epoch_failure_fallback (propagate : ℚ → Option Prediction)
    (minutes_since_epoch : ℚ → Option ℚ) (t : ℚ)
    (h : minutes_since_epoch t = none) :
    calculate propagate minutes_since_epoch t = zeroPrediction := by
  unfold calculate
  rw [h]

/-- Witness for C4: an always-failing epoch reconstruction yields the zero
prediction. -/
theorem calculate_epoch_failure_fallback_witness :
    calculate (fun _ => none) (fun _ => none) 5 = zeroPrediction :=
  calculate_epoch_failure_fallback (fun _ => none) (fun _ => none) 5 rfl

/-- Claim C5: `world_to_screen` returns `none` when the clip-space w is
nonpositive (behind camera); otherwise `none` when an NDC axis magnitude
exceeds 1 (off-screen); otherwise the pixel coordinates
`((ndc.x+1)/2 * width, (1-ndc.y)/2 * height)`, vertical axis flipped. -/
theorem world_to_screen_characterization (vp : QMat4) (world_pos : QVec3) (sw sh : ℚ) :
    ((clipSpacePos vp world_pos).w ≤ 0 → world_to_screen vp world_pos sw sh = none) ∧
    (0 < (clipSpacePos vp world_pos).w →
      (1 < |ndcX vp world_pos| ∨ 1 < |ndcY vp world_pos|) →
      world_to_screen vp world_pos sw sh = none) ∧
    (0 < (clipSpacePos vp world_pos).w →
      |ndcX vp world_pos| ≤ 1 → |ndcY vp world_pos| ≤ 1 →
      world_to_screen vp world_pos sw sh =
        some ((ndcX vp world_pos + 1) / 2 * sw, (1 - ndcY vp world_pos) / 2 * sh)) := by
  simp only [world_to_screen]
  split_ifs with h1 h2
  · exact ⟨fun _ => rfl, fun hw _ => absurd h1 (not_le.mpr hw),
      fun hw _ _ => absurd h1 (not_le.mpr hw)⟩
  · refine ⟨fun hw => absurd hw h1, fun _ _ => rfl, fun _ hx hy => ?_⟩
    rw [abs_le] at hx hy
    rcases h2 with h | h | h | h <;> linarith [hx.1, hx.2, hy.1, hy.2]
  · push_neg at h2
    refine ⟨fun hw => absurd hw h1, fun _ habs => ?_, fun _ _ _ => ?_⟩
    · rcases habs with h | h
      · rw [lt_abs] at h
        rcases h with h | h <;> linarith [h2.1, h2.2.1]
      · rw [lt_abs] at h
        rcases h with h | h <;> linarith [h2.2.2.1, h2.2.2.2]
    · rw [Option.some_inj, Prod.mk.injEq]
      exact ⟨by ring, by ring⟩

/-- Witness for C5: with the identity view-projection matrix, the origin
projects to the center of a 800 x 600 viewport. -/
theorem world_to_screen_characterization_witness :
    (0 : ℚ) < (clipSpacePos ⟨⟨1, 0, 0, 0⟩, ⟨0, 1, 0, 0⟩, ⟨0, 0, 1, 0⟩, ⟨0, 0, 0, 1⟩⟩ ⟨0, 0, 0⟩).w ∧
    world_to_screen ⟨⟨1, 0, 0, 0⟩, ⟨0, 1, 0, 0⟩, ⟨0, 0, 1, 0⟩, ⟨0, 0, 0, 1⟩⟩ ⟨0, 0, 0⟩ 800 600 =
      some ((ndcX ⟨⟨1, 0, 0, 0⟩, ⟨0, 1, 0, 0⟩, ⟨0, 0, 1, 0⟩, ⟨0, 0, 0, 1⟩⟩ ⟨0, 0, 0⟩ + 1) / 2 * 800,
        (1 - ndcY ⟨⟨1, 0, 0, 0⟩, ⟨0, 1, 0, 0⟩, ⟨0, 0, 1, 0⟩, ⟨0, 0, 0, 1⟩⟩ ⟨0, 0, 0⟩) / 2 * 600) :=
  ⟨by norm_num [clipSpacePos, mat4MulVec, qdot4],
    (world_to_screen_characterization ⟨⟨1, 0, 0, 0⟩, ⟨0, 1, 0, 0⟩, ⟨0, 0, 1, 0⟩, ⟨0, 0, 0, 1⟩⟩
        ⟨0, 0, 0⟩ 800 600).2.2
      (by norm_num [clipSpacePos, mat4MulVec, qdot4])
      (by norm_num [ndcX, clipSpacePos, mat4MulVec, qdot4])
      (by norm_num [ndcY, clipSpacePos, mat4MulVec, qdot4])⟩

/-- Claim C6: malformed records are skipped without aborting the batch: a
three-record input whose second record fails to parse yields exactly the
two valid satellites, and an input with no valid record (here: any list
all of whose three-line groups fail) yields the empty satellite list
rather than an error. -/
theorem fetchParseBatch_skips_malformed {El Cst : Type}
    (fromTle : String → String → String → Option El) (cfe : El → Option Cst)
    (n1 a1 b1 n2 a2 b2 n3 a3 b3 : String) (s1 s3 : El × Cst) (ls : List String)
    (h1 : tleParse fromTle cfe n1 a1 b1 = some s1)
    (h2 : tleParse fromTle cfe n2 a2 b2 = none)
    (h3 : tleParse fromTle cfe n3 a3 b3 = some s3)
    (hnone : ∀ name l1 l2, [name, l1, l2] ∈ chunks3 ls →
      tleParse fromTle cfe name l1 l2 = none) :
    fetchParseBatch fromTle cfe [n1, a1, b1, n2, a2, b2, n3, a3, b3] = [s1, s3] ∧
    fetchParseBatch fromTle cfe ls = [] := by
  constructor
  · simp [fetchParseBatch, chunks3, h1, h2, h3]
  · unfold fetchParseBatch
    rw [List.filterMap_eq_nil_iff]
    intro chunk hchunk
    rcases chunk with _ | ⟨n, _ | ⟨l1, _ | ⟨l2, _ | rest⟩⟩⟩
    · rfl
    · rfl
    · rfl
    · exact hnone n l1 l2 hchunk
    · rfl

/-- Witness for C6: three records over a concrete oracle that rejects the
middle name yield exactly the first and third satellites, and the empty
input yields the empty batch. -/
theorem fetchParseBatch_skips_malformed_witness :
    fetchParseBatch (fun name _ _ => if name = "B" then none else some ())
      (fun _ => some ())
      ["A", "111111111111111111111111111111111111111111111111111111111111111111111",
        "111111111111111111111111111111111111111111111111111111111111111111111", "B",
        "111111111111111111111111111111111111111111111111111111111111111111111",
        "111111111111111111111111111111111111111111111111111111111111111111111", "C",
        "111111111111111111111111111111111111111111111111111111111111111111111",
        "111111111111111111111111111111111111111111111111111111111111111111111"] =
      [((), ()), ((), ())] ∧
    fetchParseBatch (fun name _ _ => if name = "B" then none else some ())
      (fun _ => some ()) [] = [] :=
  fetchParseBatch_skips_malformed (fun name _ _ => if name = "B" then none else some ())
    (fun _ => some ())
    "A" "111111111111111111111111111111111111111111111111111111111111111111111" "111111111111111111111111111111111111111111111111111111111111111111111"
    "B" "111111111111111111111111111111111111111111111111111111111111111111111" "111111111111111111111111111111111111111111111111111111111111111111111"
    "C" "111111111111111111111111111111111111111111111111111111111111111111111" "111111111111111111111111111111111111111111111111111111111111111111111"
    ((), ()) ((), ()) []
    (by decide) (by decide) (by decide)
    (by intro name l1 l2 h; simp [chunks3] at h)

/-- Claim C7: the orbital period used to generate the orbit path is
`1440 / mean_motion` for positive mean motion and the fixed fallback `90`
otherwise; a mean motion of 15.5038 rev/day yields approximately 92.87
minutes. -/
theorem orbitalPeriod_characterization (mean_motion : ℚ) :
    (0 < mean_motion → orbitalPeriod mean_motion = 1440 / mean_motion) ∧
    (¬ 0 < mean_motion → orbitalPeriod mean_motion = 90) ∧
    |orbitalPeriod 15.5038 - 92.87| < 0.02 := by
  refine ⟨fun h => by rw [orbitalPeriod, if_pos h],
    fun h => by rw [orbitalPeriod, if_neg h], ?_⟩
  rw [orbitalPeriod, if_pos (by norm_num), abs_lt]
  norm_num

/-- Witness for C7: the positive branch applies to the ISS-style mean
motion. -/
theorem orbitalPeriod_characterization_witness :
    (0 : ℚ) < 15.5038 ∧ orbitalPeriod 15.5038 = 1440 / 15.5038 :=
  ⟨by norm_num, (orbitalPeriod_characterization 15.5038).1 (by norm_num)⟩

/-- Claim C8: in every successfully parsed record the two-digit launch and
epoch years are resolved by the pivot rule — below 57 maps to 2000+yy,
otherwise to 1900+yy — so "57" resolves to 1957 and "56" to 2056. -/
theorem resolveTwoDigitYear_pivot (line1 line2 : String) (launch_yy epoch_yy : ℕ)
    (hl1 : 69 ≤ line1.length) (hl2 : 69 ≤ line2.length)
    (hly : parseU16 (strSlice line1 9 11) = some launch_yy)
    (hey : parseU16 (strSlice line1 18 20) = some epoch_yy) :
    tleParseYears line1 line2 =
      some (if launch_yy < 57 then 2000 + launch_yy else 1900 + launch_yy,
            if epoch_yy < 57 then 2000 + epoch_yy else 1900 + epoch_yy) ∧
    resolveTwoDigitYear 57 = 1957 ∧ resolveTwoDigitYear 56 = 2056 := by
  refine ⟨?_, by decide, by decide⟩
  unfold tleParseYears
  rw [if_neg (by omega)]
  simp [hly, hey, resolveTwoDigitYear]

/-- Witness for C8: a record line whose launch-year columns hold "98" and
whose epoch-year columns hold "57" resolves to 1998 and 1957. -/
theorem resolveTwoDigitYear_pivot_witness :
    tleParseYears
      "1 25544U 98067A   57001.50000000  .00016717  20000-4 0  9991000000000"
      "2 25544  51.6400 208.9163 0006317  69.9862  25.2906 15.50381554250000" =
      some (if 98 < 57 then 2000 + 98 else 1900 + 98,
            if 57 < 57 then 2000 + 57 else 1900 + 57) ∧
    resolveTwoDigitYear 57 = 1957 ∧ resolveTwoDigitYear 56 = 2056 :=
  resolveTwoDigitYear_pivot
    "1 25544U 98067A   57001.50000000  .00016717  20000-4 0  9991000000000"
    "2 25544  51.6400 208.9163 0006317  69.9862  25.2906 15.50381554250000"
    98 57 (by decide) (by decide) (by decide) (by decide)

/-- Claim C9: the forward-button branch taken when `speed_mult < -1.0`
calls `(speed_mult / 2.0).clamp(1.0, -1.0)`, whose bounds violate
`f64::clamp`'s `min <= max` assertion, so the update panics instead of
terminating normally — here shown at `speed_mult = -2`. -/
theorem forwardButtonUpdate_panics_below_neg_one :
    forwardButtonUpdate (-2) = none := by
  unfold forwardButtonUpdate rustClamp
  norm_num

/-- Claim C10: from the default clock state, every finite sequence of
`step_backward` / `step_forward` / `reset_to_normal` keeps the speed
multiplier a signed power of two `±2^k` with `k ≤ 12`; it is never zero,
its magnitude stays in `[1, 4096]`, and it never lies strictly between
-1 and 1. -/
theorem speed_mult_reachable_invariant (ops : List TimeOp) :
    SpeedOk (runTimeOps tsDefault ops).speed_mult ∧
    (runTimeOps tsDefault ops).speed_mult ≠ 0 ∧
    1 ≤ |(runTimeOps tsDefault ops).speed_mult| ∧
    |(runTimeOps tsDefault ops).speed_mult| ≤ 4096 ∧
    ¬(-1 < (runTimeOps tsDefault ops).speed_mult ∧
      (runTimeOps tsDefault ops).speed_mult < 1) := by
  have hok : SpeedOk (runTimeOps tsDefault ops).speed_mult :=
    speedOk_runTimeOps ops tsDefault ⟨0, by norm_num, Or.inl (by norm_num [tsDefault])⟩
  exact ⟨hok, speedOk_bounds _ hok⟩

/-- Witness for C10: a concrete operation sequence lands on speed 2 and
satisfies every claimed bound. -/
theorem speed_mult_reachable_invariant_witness :
    SpeedOk (runTimeOps tsDefault [TimeOp.forward, TimeOp.forward, TimeOp.backward]).speed_mult ∧
    (runTimeOps tsDefault [TimeOp.forward, TimeOp.forward, TimeOp.backward]).speed_mult ≠ 0 ∧
    1 ≤ |(runTimeOps tsDefault [TimeOp.forward, TimeOp.forward, TimeOp.backward]).speed_mult| ∧
    |(runTimeOps tsDefault [TimeOp.forward, TimeOp.forward, TimeOp.backward]).speed_mult| ≤ 4096 ∧
    ¬(-1 < (runTimeOps tsDefault [TimeOp.forward, TimeOp.forward, TimeOp.backward]).speed_mult ∧
      (runTimeOps tsDefault [TimeOp.forward, TimeOp.forward, TimeOp.backward]).speed_mult < 1) :=
  speed_mult_reachable_invariant [TimeOp.forward, TimeOp.forward, TimeOp.backward]
